import Mathlib

/-!
Verification of the Correlation & Session-State Engine of the
`landing-pdf-parse` frontend (src/frontend/src), as specified in spec.md.

The TypeScript sources are shallowly embedded: React `useState` cells become
fields of explicit state records, event handlers and fetch continuations
become state-transition functions, and the `AbortController` mechanism is
modelled by monotonically increasing request generations together with the
set of generations whose controller has been aborted.
-/

/-! ## Data model (src/frontend/src/types, inferred from usage) -/

/-- Fractional bounding box of a grounding, coordinates in [0,1]
(fields `left`, `top`, `right`, `bottom` as used throughout the frontend). -/
structure Box where
  left : ℚ
  top : ℚ
  right : ℚ
  bottom : ℚ
deriving DecidableEq, Repr

/-- A chunk's spatial position: zero-indexed page plus fractional box. -/
structure Grounding where
  page : ℕ
  box : Box
deriving DecidableEq, Repr

/-- One structural unit of a parsed document (`Chunk` in types/ade.ts,
fields as used in App.tsx, ChunkOverlay.tsx, CompliancePanel.tsx). -/
structure Chunk where
  id : String
  type : String
  markdown : String
  grounding : Option Grounding
deriving DecidableEq, Repr

/-- Result of the parse operation (`ParseResponse`): the ordered chunk list
plus the document markdown (metadata fields are not touched by any claim). -/
structure ParseResponse where
  chunks : List Chunk
  markdown : String
deriving DecidableEq, Repr

/-- One chat message (role/content as used by ChatPanel). -/
structure ChatMessage where
  role : String
  content : String
deriving DecidableEq, Repr

/-- The two check kinds (`check_type` in types/compliance.ts). -/
inductive CheckType where
  | completeness
  | compliance
deriving DecidableEq, Repr

/-- Check result status. types/compliance.ts declares
`'pass' | 'fail' | 'needs_review' | 'na'`; CompliancePanel.tsx additionally
produces rows with status `'pending'` (`'pending' as never`), so the embedded
status carries all five string values. -/
inductive CheckStatus where
  | pass
  | fail
  | needs_review
  | na
  | pending
deriving DecidableEq, Repr

/-- The string value a `CheckStatus` has in the TypeScript source. -/
def statusStr : CheckStatus → String
  | CheckStatus.pass => "pass"
  | CheckStatus.fail => "fail"
  | CheckStatus.needs_review => "needs_review"
  | CheckStatus.na => "na"
  | CheckStatus.pending => "pending"

/-- A check definition (`ComplianceCheck` in types/compliance.ts; optional
threshold/search-term fields are not touched by any claim). -/
structure ComplianceCheck where
  id : String
  name : String
  description : String
  category : String
  rule_reference : Option String
  required : Option Bool
deriving DecidableEq, Repr

/-- One evaluated (or pending placeholder) check row
(`CheckResult` in types/compliance.ts). -/
structure CheckResult where
  check_id : String
  check_name : String
  check_type : CheckType
  status : CheckStatus
  confidence : ℕ
  found_value : Option String
  expected : Option String
  notes : String
  category : String
  chunk_ids : List String
deriving DecidableEq, Repr

/-- Aggregate counters of a report (`summary` in types/compliance.ts). -/
structure ReportSummary where
  completeness_score : ℕ
  compliance_score : ℕ
  total_checks : ℕ
  passed : ℕ
  failed : ℕ
  needs_review : ℕ
  na : ℕ
deriving DecidableEq, Repr

/-- A full compliance report (`ComplianceReport` in types/compliance.ts). -/
structure ComplianceReport where
  document_name : String
  checked_at : String
  completeness_results : List CheckResult
  compliance_results : List CheckResult
  summary : ReportSummary
deriving DecidableEq, Repr

/-! ## Correlation Engine (src/frontend/src/components/CompliancePanel.tsx) -/

/-- `createPendingResults` (CompliancePanel.tsx:62-75): one placeholder row
per check, built with `checks.map`. -/
def createPendingResults (checks : List ComplianceCheck) (checkType : CheckType) :
    List CheckResult :=
  checks.map fun check =>
    { check_id := check.id
      check_name := check.name
      check_type := checkType
      status := CheckStatus.pending
      confidence := 0
      found_value := none
      expected := none
      notes := check.description
      category := check.category
      chunk_ids := [] }

/-- The status-filter selector (`StatusFilter` in CompliancePanel.tsx:16):
`'all' | 'pass' | 'fail' | 'needs_review' | 'na'`. -/
inductive StatusFilter where
  | all
  | pass
  | fail
  | needs_review
  | na
deriving DecidableEq, Repr

/-- The string value a `StatusFilter` has in the TypeScript source. -/
def statusFilterStr : StatusFilter → String
  | StatusFilter.all => "all"
  | StatusFilter.pass => "pass"
  | StatusFilter.fail => "fail"
  | StatusFilter.needs_review => "needs_review"
  | StatusFilter.na => "na"

/-- `getFilteredResults` (CompliancePanel.tsx:161-164): identity when the
filter is `'all'`, otherwise `results.filter(r => r.status === statusFilter)`
(string equality in the source, embedded as equality of the status strings). -/
def getFilteredResults (statusFilter : StatusFilter) (results : List CheckResult) :
    List CheckResult :=
  if statusFilter = StatusFilter.all then results
  else results.filter fun r => statusStr r.status == statusFilterStr statusFilter

/-- `displayResults` (CompliancePanel.tsx:167-177): with a report, the active
tab's rows run through `getFilteredResults`; without a report, the pending
placeholder rows of the active tab are returned unfiltered. -/
def displayResults (report : Option ComplianceReport) (activeTab : CheckType)
    (statusFilter : StatusFilter)
    (pendingCompletenessResults pendingComplianceResults : List CheckResult) :
    List CheckResult :=
  match report with
  | some rep =>
      getFilteredResults statusFilter
        (match activeTab with
         | CheckType.completeness => rep.completeness_results
         | CheckType.compliance => rep.compliance_results)
  | none =>
      match activeTab with
      | CheckType.completeness => pendingCompletenessResults
      | CheckType.compliance => pendingComplianceResults

/-- Evidence resolution (CompliancePanel.tsx:260 `relevantChunks`):
`chunks.filter(c => selectedResult.chunk_ids.includes(c.id))`. -/
def relevantChunks (chunks : List Chunk) (chunk_ids : List String) : List Chunk :=
  chunks.filter fun c => chunk_ids.contains c.id

/-- Evidence resolution in the chat view (ChatPanel, src/unnamed/part_001
lines 137-140): `msg.chunk_ids ? chunks.filter(...) : []`. -/
def chatRelevantChunks (chunks : List Chunk) (chunk_ids : Option (List String)) :
    List Chunk :=
  match chunk_ids with
  | some ids => chunks.filter fun c => ids.contains c.id
  | none => []

/-- Evidence resolution viewed as a transformer over the ambient
data-quality event log. The source (CompliancePanel.tsx:260 and the ChatPanel
of src/unnamed/part_001) only filters the chunk list; it performs no logging,
no console output and no state write recording an unresolvable id, so the
event-log component of the state passes through unchanged. -/
def resolveEvidenceWithEvents (chunks : List Chunk) (chunk_ids : List String)
    (events : List String) : List Chunk × List String :=
  (relevantChunks chunks chunk_ids, events)

/-! ## Geometry Mapper -/

/-- Error for malformed geometry (spec §7 taxonomy). -/
inductive ValidationError where
  | invalidBox : String → ValidationError
deriving DecidableEq, Repr

/-- A pixel rectangle `{left, top, width, height}`. -/
structure PixelRect where
  left : ℚ
  top : ℚ
  width : ℚ
  height : ℚ
deriving DecidableEq, Repr

/-- Modelled from the spec: the geometry helper `calculatePixelBox` lives in
src/frontend/src/utils/boundingBox.ts, which is not among the repository
files under src/ — only its call site (ChunkOverlay.tsx:21-25) is. Per spec
§4.1 the operation multiplies the fractional box coordinates by the current
pixel page dimensions, is defined for any box satisfying the §3 ordering
invariant, and fails with a `ValidationError` when the invariant is
violated. -/
def calculatePixelBox (box : Box) (pageWidthPx pageHeightPx : ℚ) :
    Except ValidationError PixelRect :=
  if box.left ≤ box.right ∧ box.top ≤ box.bottom then
    Except.ok
      { left := box.left * pageWidthPx
        top := box.top * pageHeightPx
        width := (box.right - box.left) * pageWidthPx
        height := (box.bottom - box.top) * pageHeightPx }
  else
    Except.error (ValidationError.invalidBox "box ordering invariant violated")

/-- `ChunkOverlay` (ChunkOverlay.tsx:12-49) reduced to the data it renders:
`if (!chunk.grounding) return null;` and otherwise the pixel rectangle of the
grounding's box. -/
def chunkOverlay (chunk : Chunk) (pageWidth pageHeight : ℚ) :
    Option (Except ValidationError PixelRect) :=
  match chunk.grounding with
  | none => none
  | some g => some (calculatePixelBox g.box pageWidth pageHeight)

/-! ## Session state (src/frontend/src/App.tsx)

Each `useState` cell of `App` is a field. The single `AbortController` ref of
App.tsx is embedded by request generations: `nextGen` is the next controller
identity to hand out, `abortControllerRef` holds the generation currently in
the ref (or `none` after `abortControllerRef.current = null`), and
`abortedGens` collects every generation whose controller's `abort()` was
called. A fetch started with generation `g` settles on the `AbortError`
branch exactly when `g ∈ abortedGens`. -/

/-- The right-panel tabs (`TabType`). -/
inductive TabType where
  | parse
  | extract
  | checks
  | chat
  | compliance
deriving DecidableEq, Repr

/-- The state of the `App` component (App.tsx:25-46), with the abort
bookkeeping made explicit. -/
structure AppState where
  file : Option String
  parseResult : Option ParseResponse
  highlightedChunk : Option Chunk
  popupChunk : Option Chunk
  activeTab : TabType
  isLoading : Bool
  error : Option String
  complianceReport : Option ComplianceReport
  targetPage : Option ℕ
  chatMessages : List ChatMessage
  isPdfReady : Bool
  abortControllerRef : Option ℕ
  abortedGens : List ℕ
  nextGen : ℕ
deriving DecidableEq, Repr

/-- The user-observable session data: everything `App` renders from
(`parseResult`, highlight, popup, error banner, report, navigation target,
chat history, loading flag) — the abort bookkeeping is internal. -/
def AppState.observable (st : AppState) :
    Option ParseResponse × Option Chunk × Option Chunk × Option String ×
      Option ComplianceReport × Option ℕ × List ChatMessage × Bool :=
  (st.parseResult, st.highlightedChunk, st.popupChunk, st.error,
    st.complianceReport, st.targetPage, st.chatMessages, st.isLoading)

/-- `handleFileSelect` (App.tsx:48-63): aborts the controller currently in
the ref (without nulling the ref) and resets the whole document session. -/
def handleFileSelect (uploadedFile : String) (st : AppState) : AppState :=
  let st1 :=
    match st.abortControllerRef with
    | some g => { st with abortedGens := g :: st.abortedGens }
    | none => st
  { st1 with
      file := some uploadedFile
      error := none
      parseResult := none
      highlightedChunk := none
      popupChunk := none
      isPdfReady := false
      isLoading := false
      complianceReport := none
      targetPage := none
      chatMessages := [] }

/-- `handleCancel` (App.tsx:69-76): aborts and nulls the current controller,
stops the spinner and clears the error banner. -/
def handleCancel (st : AppState) : AppState :=
  match st.abortControllerRef with
  | some g =>
      { st with
          abortedGens := g :: st.abortedGens
          abortControllerRef := none
          isLoading := false
          error := none }
  | none => { st with isLoading := false, error := none }

/-- The synchronous prefix of `handleProcess` (App.tsx:78-98): guard on
`file`, install a fresh `AbortController`, set loading, clear the error. The
fetch itself is represented by the issued generation, settled later by
`resolveParseSuccess` / `resolveParseFailure`. -/
def handleProcess (st : AppState) : AppState :=
  match st.file with
  | none => st
  | some _ =>
      { st with
          abortControllerRef := some st.nextGen
          nextGen := st.nextGen + 1
          isLoading := true
          error := none }

/-- Continuation of a parse fetch issued with generation `g` that produced
`result` (App.tsx:100-124). If `g`'s controller was aborted, the promise
rejects with `AbortError` and the catch branch returns without touching
state; the `finally` block still runs (`setIsLoading(false)`,
`abortControllerRef.current = null`). Otherwise `setParseResult(result)`
applies, then the same `finally`. -/
def resolveParseSuccess (g : ℕ) (result : ParseResponse) (st : AppState) : AppState :=
  if g ∈ st.abortedGens then
    { st with isLoading := false, abortControllerRef := none }
  else
    { st with
        parseResult := some result
        isLoading := false
        abortControllerRef := none }

/-- Continuation of a parse fetch issued with generation `g` that failed with
message `msg` (App.tsx:114-124): an aborted request's `AbortError` rejection
is swallowed (no `setError`), a live request's failure sets the error banner;
the `finally` block runs in both cases. -/
def resolveParseFailure (g : ℕ) (msg : String) (st : AppState) : AppState :=
  if g ∈ st.abortedGens then
    { st with isLoading := false, abortControllerRef := none }
  else
    { st with
        error := some msg
        isLoading := false
        abortControllerRef := none }

/-! ## Selection synchronization (App.tsx handlers) -/

/-- The toggle on the highlighted chunk shared by the page-click and
list-click origins: `highlightedChunk?.id === chunk.id ? null : chunk`. -/
def toggleHighlight (chunk : Chunk) (highlighted : Option Chunk) : Option Chunk :=
  match highlighted with
  | some h => if h.id = chunk.id then none else some chunk
  | none => some chunk

/-- `handleChunkClick` (App.tsx:128-134): page-click origin — toggle the
highlight and switch to the parse tab. -/
def handleChunkClick (chunk : Chunk) (st : AppState) : AppState :=
  let st1 := { st with highlightedChunk := toggleHighlight chunk st.highlightedChunk }
  if st1.activeTab ≠ TabType.parse then { st1 with activeTab := TabType.parse } else st1

/-- The `onChunkSelect` handler passed to `ParseResults` (App.tsx:272-278):
list-click origin — toggle the highlight and, when the chunk has a grounding,
navigate to its (one-indexed) page. -/
def parseResultsChunkSelect (chunk : Chunk) (st : AppState) : AppState :=
  let st1 := { st with highlightedChunk := toggleHighlight chunk st.highlightedChunk }
  match chunk.grounding with
  | some g => { st1 with targetPage := some (g.page + 1) }
  | none => st1

/-- The `onChunkSelect` handler passed to `ChatPanel` and `CompliancePanel`
(App.tsx:330-338 and 351-359): chat-citation / compliance-row origin.
`parseResult?.chunks.find(c => chunkIds.includes(c.id))` — the first chunk in
the parse result's chunk order whose id occurs in `chunkIds` — is highlighted
unconditionally (no toggle), and a truthy `pageNumber` (i.e. a supplied,
nonzero page) sets the navigation target. -/
def evidenceChunkSelect (chunkIds : List String) (pageNumber : Option ℕ)
    (st : AppState) : AppState :=
  match st.parseResult with
  | none => st
  | some pr =>
      match pr.chunks.find? (fun c => chunkIds.contains c.id) with
      | none => st
      | some chunk =>
          let st1 := { st with highlightedChunk := some chunk }
          match pageNumber with
          | none => st1
          | some p => if p = 0 then st1 else { st1 with targetPage := some p }

/-! ## CompliancePanel component state and its operations -/

/-- The local state of `CompliancePanel` (CompliancePanel.tsx:85-89). -/
structure CompliancePanelState where
  isLoading : Bool
  error : Option String
  selectedResult : Option CheckResult
  statusFilter : StatusFilter
  activeTab : CheckType
deriving DecidableEq, Repr

/-- The synchronous prefix of `runChecks` (CompliancePanel.tsx:101-107):
guard on empty markdown, set loading, clear error and row selection. The
fetch carries no abort signal and no liveness token. -/
def runChecksStart (markdown : String) (ps : CompliancePanelState) :
    CompliancePanelState :=
  if markdown = "" then ps
  else { ps with isLoading := true, error := none, selectedResult := none }

/-- Continuation of a successful compliance fetch (CompliancePanel.tsx:
125-131): `onReportChange(data)` writes the report into the app state
unconditionally — the source has no token or document-identity check — and
the panel's spinner stops. -/
def resolveChecksSuccess (data : ComplianceReport)
    (ps : CompliancePanelState) (st : AppState) :
    CompliancePanelState × AppState :=
  ({ ps with isLoading := false }, { st with complianceReport := some data })

/-- Continuation of a failed compliance fetch (CompliancePanel.tsx:127-131). -/
def resolveChecksFailure (msg : String) (ps : CompliancePanelState)
    (st : AppState) : CompliancePanelState × AppState :=
  ({ ps with isLoading := false, error := some msg }, st)

/-- `handleRowClick` (CompliancePanel.tsx:134-146): pending rows are inert;
otherwise the detail selection toggles, and when the row has evidence ids the
page of the first matching chunk (in chunk order) is looked up and
`onChunkSelect(result.chunk_ids, page + 1 or undefined)` fires, which is
`evidenceChunkSelect` on the app state. -/
def handleRowClick (result : CheckResult) (chunks : List Chunk)
    (ps : CompliancePanelState) (st : AppState) :
    CompliancePanelState × AppState :=
  if statusStr result.status = "pending" then (ps, st)
  else
    let ps1 :=
      { ps with
          selectedResult :=
            match ps.selectedResult with
            | some sel => if sel.check_id = result.check_id then none else some result
            | none => some result }
    if result.chunk_ids.length > 0 then
      let firstChunk := chunks.find? fun c => result.chunk_ids.contains c.id
      let pageNumber := firstChunk.bind fun c => c.grounding.map Grounding.page
      (ps1, evidenceChunkSelect result.chunk_ids (pageNumber.map (· + 1)) st)
    else (ps1, st)

/-! ## Concrete fixtures used by counterexamples and witnesses -/

/-- A grounded text chunk with id "c1". -/
def chunkA : Chunk :=
  { id := "c1", type := "text", markdown := "alpha"
    grounding := some { page := 0, box := ⟨0, 0, 1, 1⟩ } }

/-- A grounded table chunk with id "c2". -/
def chunkB : Chunk :=
  { id := "c2", type := "table", markdown := "beta"
    grounding := some { page := 2, box := ⟨0, 0, 1, 1⟩ } }

/-- Session state with a parse request (generation 0) in flight. -/
def st0 : AppState :=
  { file := some "a.pdf", parseResult := none, highlightedChunk := none
    popupChunk := none, activeTab := TabType.parse, isLoading := true
    error := none, complianceReport := none, targetPage := none
    chatMessages := [], isPdfReady := true, abortControllerRef := some 0
    abortedGens := [], nextGen := 1 }

/-- Session state on the chat tab with chunkA parsed and highlighted. -/
def stC2 : AppState :=
  { file := some "a.pdf"
    parseResult := some { chunks := [chunkA], markdown := "doc" }
    highlightedChunk := some chunkA, popupChunk := none
    activeTab := TabType.chat, isLoading := false, error := none
    complianceReport := none, targetPage := none, chatMessages := []
    isPdfReady := true, abortControllerRef := none, abortedGens := []
    nextGen := 1 }

/-- Session state with chunks [chunkA, chunkB] parsed, nothing highlighted. -/
def stC3 : AppState :=
  { file := some "a.pdf"
    parseResult := some { chunks := [chunkA, chunkB], markdown := "doc" }
    highlightedChunk := none, popupChunk := none
    activeTab := TabType.compliance, isLoading := false, error := none
    complianceReport := none, targetPage := none, chatMessages := []
    isPdfReady := true, abortControllerRef := none, abortedGens := []
    nextGen := 1 }

/-- Panel state with a compliance run in flight. -/
def psRun : CompliancePanelState :=
  { isLoading := true, error := none, selectedResult := none
    statusFilter := StatusFilter.all, activeTab := CheckType.completeness }

/-- A concrete compliance report. -/
def rptX : ComplianceReport :=
  { document_name := "a.pdf", checked_at := "t"
    completeness_results := [], compliance_results := []
    summary :=
      { completeness_score := 0, compliance_score := 0, total_checks := 0
        passed := 0, failed := 0, needs_review := 0, na := 0 } }

/-- Concrete parse results. -/
def prA : ParseResponse := { chunks := [chunkA], markdown := "A" }

def prB : ParseResponse := { chunks := [chunkB], markdown := "B" }

/-! ## Helper lemmas -/

/-- `handleChunkClick` changes the highlight exactly by the toggle,
independently of the tab switch. -/
theorem handleChunkClick_highlight (chunk : Chunk) (st : AppState) :
    (handleChunkClick chunk st).highlightedChunk =
      toggleHighlight chunk st.highlightedChunk := by
  simp only [handleChunkClick]
  split <;> rfl

/-- `parseResultsChunkSelect` changes the highlight exactly by the toggle,
independently of the navigation update. -/
theorem parseResultsChunkSelect_highlight (chunk : Chunk) (st : AppState) :
    (parseResultsChunkSelect chunk st).highlightedChunk =
      toggleHighlight chunk st.highlightedChunk := by
  unfold parseResultsChunkSelect
  cases chunk.grounding <;> rfl

/-- A successful `find?` splits the list at the first satisfying element. -/
theorem find?_first {α : Type} (p : α → Bool) (l : List α) (c : α)
    (h : l.find? p = some c) :
    ∃ l1 l2, l = l1 ++ c :: l2 ∧ (∀ x ∈ l1, p x = false) ∧ p c = true := by
  induction l with
  | nil => simp at h
  | cons a t ih =>
    cases hpa : p a with
    | true =>
        rw [List.find?_cons_of_pos _ hpa] at h
        obtain rfl : a = c := by injection h
        exact ⟨[], t, rfl, by simp, hpa⟩
    | false =>
        rw [List.find?_cons_of_neg _ (by simp [hpa])] at h
        obtain ⟨l1, l2, rfl, hl1, hc⟩ := ih h
        refine ⟨a :: l1, l2, rfl, ?_, hc⟩
        intro x hx
        rcases List.mem_cons.mp hx with rfl | hx'
        · exact hpa
        · exact hl1 x hx'

/-! ## Claims -/

/-- C5: `createPendingResults` returns exactly one placeholder row per
definition, in the same order, each with status pending, confidence 0, no
evidence ids and notes equal to the definition's description; two calls with
the same definitions yield identical rows (ids and order included). -/
theorem buildPendingRows_spec (checks : List ComplianceCheck) (kind : CheckType) :
    (createPendingResults checks kind).length = checks.length ∧
    (∀ i : ℕ, (createPendingResults checks kind)[i]? =
      (checks[i]?).map fun check =>
        { check_id := check.id
          check_name := check.name
          check_type := kind
          status := CheckStatus.pending
          confidence := 0
          found_value := none
          expected := none
          notes := check.description
          category := check.category
          chunk_ids := [] }) ∧
    (createPendingResults checks kind).map CheckResult.check_id =
      checks.map ComplianceCheck.id ∧
    createPendingResults checks kind = createPendingResults checks kind := by
  refine ⟨by simp [createPendingResults], ?_, ?_, rfl⟩
  · intro i
    simp [createPendingResults]
  · simp [createPendingResults, List.map_map]

/-- C6: `getFilteredResults` with `'all'` is the identity; with a concrete
status it returns exactly the rows whose status string equals the filter;
pending rows are excluded from every concrete-status filter; and pending rows
are surfaced (by `displayResults`) only when no report exists — with a report
whose rows are server-produced (never pending), no displayed row is pending,
and without a report the unfiltered pending placeholders are displayed. -/
theorem filterByStatus_spec (rows : List CheckResult) (rep : ComplianceReport)
    (tab : CheckType) (sf : StatusFilter)
    (hserver1 : ∀ r ∈ rep.completeness_results, r.status ≠ CheckStatus.pending)
    (hserver2 : ∀ r ∈ rep.compliance_results, r.status ≠ CheckStatus.pending) :
    getFilteredResults StatusFilter.all rows = rows ∧
    (sf ≠ StatusFilter.all →
      ∀ r, r ∈ getFilteredResults sf rows ↔
        r ∈ rows ∧ statusStr r.status = statusFilterStr sf) ∧
    (sf ≠ StatusFilter.all → ∀ r, r.status = CheckStatus.pending →
      r ∉ getFilteredResults sf rows) ∧
    (∀ pc pm r, r ∈ displayResults (some rep) tab sf pc pm →
      r.status ≠ CheckStatus.pending) ∧
    (∀ pc pm, displayResults none tab sf pc pm =
      (match tab with
       | CheckType.completeness => pc
       | CheckType.compliance => pm)) := by
  refine ⟨by simp [getFilteredResults], ?_, ?_, ?_, ?_⟩
  · intro hsf r
    rw [getFilteredResults, if_neg hsf]
    simp [List.mem_filter]
  · intro hsf r hpend hmem
    rw [getFilteredResults, if_neg hsf] at hmem
    have := (List.mem_filter.mp hmem).2
    rw [hpend] at this
    cases sf <;> simp_all [statusStr, statusFilterStr]
  · intro pc pm r hmem
    cases tab with
    | completeness =>
        have hmem2 : r ∈ getFilteredResults sf rep.completeness_results := hmem
        have hrows : r ∈ rep.completeness_results := by
          rw [getFilteredResults] at hmem2
          split at hmem2
          · exact hmem2
          · exact (List.mem_filter.mp hmem2).1
        exact hserver1 r hrows
    | compliance =>
        have hmem2 : r ∈ getFilteredResults sf rep.compliance_results := hmem
        have hrows : r ∈ rep.compliance_results := by
          rw [getFilteredResults] at hmem2
          split at hmem2
          · exact hmem2
          · exact (List.mem_filter.mp hmem2).1
        exact hserver2 r hrows
  · intro pc pm
    cases tab <;> rfl

/-- C6 witness: the theorem applied to a concrete report and rows. -/
theorem filterByStatus_spec_witness :
    ((∀ r ∈ rptX.completeness_results, r.status ≠ CheckStatus.pending) ∧
     (∀ r ∈ rptX.compliance_results, r.status ≠ CheckStatus.pending)) ∧
    getFilteredResults StatusFilter.all [] = [] :=
  ⟨⟨by decide, by decide⟩,
    (filterByStatus_spec [] rptX CheckType.completeness StatusFilter.pass
      (by decide) (by decide)).1⟩

/-- C9 (spec-modelled geometry): for a box satisfying the ordering invariant,
`calculatePixelBox` multiplies the fractional coordinates by the pixel page
dimensions; box {0,0,1,1} on an 800×1000 page maps to {0,0,800,1000} and box
{0.25,0.25,0.75,0.75} to {200,250,400,500}; a box violating the ordering
invariant fails with a ValidationError. -/
theorem calculatePixelBox_spec (box : Box) (w h : ℚ)
    (hord : box.left ≤ box.right ∧ box.top ≤ box.bottom) :
    calculatePixelBox box w h = Except.ok
      { left := box.left * w, top := box.top * h
        width := (box.right - box.left) * w
        height := (box.bottom - box.top) * h } ∧
    calculatePixelBox ⟨0, 0, 1, 1⟩ 800 1000 = Except.ok ⟨0, 0, 800, 1000⟩ ∧
    calculatePixelBox ⟨1/4, 1/4, 3/4, 3/4⟩ 800 1000 =
      Except.ok ⟨200, 250, 400, 500⟩ ∧
    (∀ b : Box, ¬(b.left ≤ b.right ∧ b.top ≤ b.bottom) →
      calculatePixelBox b w h =
        Except.error (ValidationError.invalidBox "box ordering invariant violated")) := by
  refine ⟨by rw [calculatePixelBox, if_pos hord], ?_, ?_, ?_⟩
  · rw [calculatePixelBox, if_pos (by norm_num)]
    norm_num
  · rw [calculatePixelBox, if_pos (by norm_num)]
    norm_num
  · intro b hb
    rw [calculatePixelBox, if_neg hb]

/-- C9 witness: the theorem applied to the unit box on an 800×1000 page. -/
theorem calculatePixelBox_spec_witness :
    ((0 : ℚ) ≤ 1 ∧ (0 : ℚ) ≤ 1) ∧
    calculatePixelBox ⟨0, 0, 1, 1⟩ 800 1000 = Except.ok
      { left := (0 : ℚ) * 800, top := (0 : ℚ) * 1000
        width := ((1 : ℚ) - 0) * 800, height := ((1 : ℚ) - 0) * 1000 } :=
  ⟨⟨by norm_num, by norm_num⟩,
    (calculatePixelBox_spec ⟨0, 0, 1, 1⟩ 800 1000 ⟨by norm_num, by norm_num⟩).1⟩

/-- C10: a chunk without a grounding produces no overlay — no pixel
rectangle is computed or drawn — and an overlay exists exactly for chunks
with a grounding. -/
theorem ungrounded_chunk_no_overlay (chunk : Chunk) (w h : ℚ) :
    (chunk.grounding = none → chunkOverlay chunk w h = none) ∧
    ((chunkOverlay chunk w h).isSome ↔ chunk.grounding.isSome) := by
  cases hg : chunk.grounding <;> simp [chunkOverlay, hg]

/-- C10 witness: the theorem applied to a concrete ungrounded chunk. -/
theorem ungrounded_chunk_no_overlay_witness :
    ({ id := "c0", type := "text", markdown := "m", grounding := none } : Chunk).grounding
        = none ∧
    chunkOverlay { id := "c0", type := "text", markdown := "m", grounding := none }
        800 1000 = none :=
  ⟨rfl,
    (ungrounded_chunk_no_overlay
      { id := "c0", type := "text", markdown := "m", grounding := none } 800 1000).1 rfl⟩

/-- C7 counterexample: resolving evidence ids ["c1", "zz"] — "c1" valid,
"zz" nonexistent — yields exactly one resolved fragment but records zero
data-quality events, because the source (CompliancePanel.tsx:260, ChatPanel)
performs no recording of unresolvable ids; the claim's "the unresolvable id
is recorded as a data-quality event" is false at this input. -/
theorem evidence_resolution_no_event_counterexample :
    (resolveEvidenceWithEvents [chunkA, chunkB] ["c1", "zz"] []).1 = [chunkA] ∧
    (resolveEvidenceWithEvents [chunkA, chunkB] ["c1", "zz"] []).2 = [] ∧
    ¬((resolveEvidenceWithEvents [chunkA, chunkB] ["c1", "zz"] []).2.length = 1) := by
  refine ⟨?_, rfl, by decide⟩
  decide

/-- C7 (amended): evidence resolution drops each unresolvable id silently —
without recording any data-quality event — and never fails: when exactly one
chunk carries the valid id and no chunk carries the nonexistent id, the
outcome resolves to exactly one evidence fragment and the event log is
unchanged; ids that all fail to resolve yield empty evidence (also in the
chat view, where absent ids yield empty evidence). -/
theorem evidence_resolution_amended (chunks : List Chunk)
    (validId invalidId : String) (events : List String)
    (hone : (chunks.filter fun c => c.id == validId).length = 1)
    (hinv : ∀ c ∈ chunks, c.id ≠ invalidId) :
    (resolveEvidenceWithEvents chunks [validId, invalidId] events).1.length = 1 ∧
    (resolveEvidenceWithEvents chunks [validId, invalidId] events).2 = events ∧
    (∀ ids : List String, (∀ c ∈ chunks, c.id ∉ ids) →
      relevantChunks chunks ids = []) ∧
    chatRelevantChunks chunks none = [] := by
  refine ⟨?_, rfl, ?_, rfl⟩
  · have hcongr : (chunks.filter fun c => ([validId, invalidId] : List String).contains c.id)
        = chunks.filter fun c => c.id == validId := by
      apply List.filter_congr
      intro c hc
      simp [List.contains_cons, List.contains_nil, beq_eq_decide, hinv c hc]
    show (relevantChunks chunks [validId, invalidId]).length = 1
    rw [relevantChunks, hcongr, hone]
  · intro ids hids
    rw [relevantChunks, List.filter_eq_nil_iff]
    intro c hc
    simp [hids c hc]

/-- C7 witness: the amended theorem applied to chunks [chunkA, chunkB] with
valid id "c1" and nonexistent id "zz". -/
theorem evidence_resolution_amended_witness :
    ((([chunkA, chunkB] : List Chunk).filter fun c => c.id == "c1").length = 1 ∧
     (∀ c ∈ ([chunkA, chunkB] : List Chunk), c.id ≠ "zz")) ∧
    (resolveEvidenceWithEvents [chunkA, chunkB] ["c1", "zz"] ["e0"]).1.length = 1 :=
  ⟨⟨by decide, by decide⟩,
    (evidence_resolution_amended [chunkA, chunkB] "c1" "zz" ["e0"]
      (by decide) (by decide)).1⟩

/-- C2 counterexample: with chunkA already highlighted, a chat-citation (or
compliance-row) click on chunkA — App.tsx:330-338 — leaves chunkA
highlighted instead of clearing the highlight: that origin sets the
highlight unconditionally, so selecting the already-highlighted fragment
does not toggle it off. -/
theorem chat_select_no_toggle_counterexample :
    stC2.highlightedChunk = some chunkA ∧
    (evidenceChunkSelect ["c1"] none stC2).highlightedChunk = some chunkA ∧
    ¬((evidenceChunkSelect ["c1"] none stC2).highlightedChunk = none) := by
  refine ⟨rfl, ?_, ?_⟩ <;> decide

/-- C2 (amended): toggle semantics hold for the page-click and list-click
origins — from a state where x is not highlighted and with y.id ≠ x.id,
select(x);select(x) yields no highlight, select(x);select(y);select(y)
yields no highlight and select(x);select(y) yields highlight = y — while
the chat-citation and compliance-row origins set the highlight
unconditionally (re-selecting the already-highlighted fragment keeps it
highlighted rather than clearing it). -/
theorem select_toggle_amended (st : AppState) (x y : Chunk)
    (hx : st.highlightedChunk.map Chunk.id ≠ some x.id) (hxy : y.id ≠ x.id) :
    (handleChunkClick x st).highlightedChunk = some x ∧
    (handleChunkClick x (handleChunkClick x st)).highlightedChunk = none ∧
    (handleChunkClick y (handleChunkClick x st)).highlightedChunk = some y ∧
    (handleChunkClick y (handleChunkClick y (handleChunkClick x st))).highlightedChunk
        = none ∧
    (parseResultsChunkSelect x st).highlightedChunk = some x ∧
    (parseResultsChunkSelect x (parseResultsChunkSelect x st)).highlightedChunk
        = none ∧
    (∀ ids page pr c, st.parseResult = some pr →
      pr.chunks.find? (fun ch => ids.contains ch.id) = some c →
      (evidenceChunkSelect ids page st).highlightedChunk = some c) := by
  have htog : toggleHighlight x st.highlightedChunk = some x := by
    cases hh : st.highlightedChunk with
    | none => rfl
    | some hch =>
        rw [hh] at hx
        have : hch.id ≠ x.id := by simpa using hx
        simp [toggleHighlight, this]
  have htogx : toggleHighlight x (some x) = none := by
    simp [toggleHighlight]
  have hxy' : x.id ≠ y.id := Ne.symm hxy
  have htogy : toggleHighlight y (some x) = some y := by
    simp [toggleHighlight, hxy']
  have htogyy : toggleHighlight y (some y) = none := by
    simp [toggleHighlight]
  refine ⟨?_, ?_, ?_, ?_, ?_, ?_, ?_⟩
  · rw [handleChunkClick_highlight, htog]
  · rw [handleChunkClick_highlight, handleChunkClick_highlight, htog, htogx]
  · rw [handleChunkClick_highlight, handleChunkClick_highlight, htog, htogy]
  · rw [handleChunkClick_highlight, handleChunkClick_highlight,
      handleChunkClick_highlight, htog, htogy, htogyy]
  · rw [parseResultsChunkSelect_highlight, htog]
  · rw [parseResultsChunkSelect_highlight, parseResultsChunkSelect_highlight,
      htog, htogx]
  · intro ids page pr c hpr hfind
    rw [evidenceChunkSelect, hpr]
    simp only [hfind]
    cases page with
    | none => rfl
    | some p =>
        by_cases hp : p = 0 <;> simp [hp]

/-- C2 witness: the amended theorem applied to stC3 (nothing highlighted)
with x = chunkA and y = chunkB. -/
theorem select_toggle_amended_witness :
    (stC3.highlightedChunk.map Chunk.id ≠ some chunkA.id ∧ chunkB.id ≠ chunkA.id) ∧
    (handleChunkClick chunkA (handleChunkClick chunkA stC3)).highlightedChunk = none :=
  ⟨⟨by decide, by decide⟩,
    (select_toggle_amended stC3 chunkA chunkB (by decide) (by decide)).2.1⟩

/-- C3 counterexample: evidence ids ["c2", "c1"], both resolvable in a parse
result whose chunk order is [chunkA (id c1), chunkB (id c2)]. The first
resolvable id in the evidence-list order is "c2" (chunkB), but the code
(`parseResult?.chunks.find(c => chunkIds.includes(c.id))`, App.tsx:330-338)
scans the parse result's chunk order and highlights chunkA instead. -/
theorem evidence_select_order_counterexample :
    (evidenceChunkSelect ["c2", "c1"] (some 3) stC3).highlightedChunk = some chunkA ∧
    ¬((evidenceChunkSelect ["c2", "c1"] (some 3) stC3).highlightedChunk = some chunkB) := by
  refine ⟨?_, ?_⟩ <;> decide

/-- C3 (amended): with a parse result present and at least one evidence id
resolvable, the fragment that becomes highlighted is the first chunk in the
parse result's chunk order whose id occurs in the evidence list (not the
first resolvable id in evidence-list order), and a supplied page — callers
always pass a one-indexed page ≥ 1 — sets the navigation target to that
page, while no supplied page leaves the target unchanged. -/
theorem evidence_select_amended (st : AppState) (ids : List String) (p : ℕ)
    (pr : ParseResponse) (c : Chunk)
    (hpr : st.parseResult = some pr)
    (hfind : pr.chunks.find? (fun ch => ids.contains ch.id) = some c) :
    (evidenceChunkSelect ids (some (p + 1)) st).highlightedChunk = some c ∧
    (evidenceChunkSelect ids (some (p + 1)) st).targetPage = some (p + 1) ∧
    (evidenceChunkSelect ids none st).highlightedChunk = some c ∧
    (evidenceChunkSelect ids none st).targetPage = st.targetPage ∧
    ∃ l1 l2, pr.chunks = l1 ++ c :: l2 ∧
      (∀ ch ∈ l1, ids.contains ch.id = false) ∧ ids.contains c.id = true := by
  have hp1 : ¬(p + 1 = 0) := Nat.succ_ne_zero p
  refine ⟨?_, ?_, ?_, ?_, ?_⟩
  · rw [evidenceChunkSelect, hpr]
    simp only [hfind]
    simp [hp1]
  · rw [evidenceChunkSelect, hpr]
    simp only [hfind]
    simp [hp1]
  · rw [evidenceChunkSelect, hpr]
    simp only [hfind]
  · rw [evidenceChunkSelect, hpr]
    simp only [hfind]
  · exact find?_first _ _ _ hfind

/-- C3 witness: the amended theorem applied to stC3 with evidence ids
["c2", "c1"] and page 3 (chunkA is the first chunk in chunk order whose id
occurs in the list). -/
theorem evidence_select_amended_witness :
    (stC3.parseResult = some { chunks := [chunkA, chunkB], markdown := "doc" } ∧
     ({ chunks := [chunkA, chunkB], markdown := "doc" } : ParseResponse).chunks.find?
        (fun ch => (["c2", "c1"] : List String).contains ch.id) = some chunkA) ∧
    (evidenceChunkSelect ["c2", "c1"] (some (2 + 1)) stC3).targetPage = some (2 + 1) :=
  ⟨⟨rfl, by decide⟩,
    (evidence_select_amended stC3 ["c2", "c1"] 2
      { chunks := [chunkA, chunkB], markdown := "doc" } chunkA rfl (by decide)).2.1⟩

/-- C1: stale-parse discard. If a parse request (generation g, the
controller currently in the ref) is in flight and a new document is
selected — which aborts g — then g's eventual resolution settles on the
AbortError branch and leaves every user-observable piece of session state
(parseResult included) exactly as it was at the moment of supersession; the
same holds when g was aborted by an explicit cancel. A subsequently issued
parse request is live (its fresh generation is unaborted) and its
resolution applies its result. Each generation settles exactly once, so
only the latest-issued, still-live request's result is ever applied. -/
theorem stale_parse_result_discarded (st : AppState) (g : ℕ) (f : String)
    (r1 r2 : ParseResponse)
    (href : st.abortControllerRef = some g)
    (hfresh : ∀ g2 ∈ st.abortedGens, g2 < st.nextGen) (hg : g < st.nextGen) :
    AppState.observable (resolveParseSuccess g r1 (handleFileSelect f st)) =
      AppState.observable (handleFileSelect f st) ∧
    AppState.observable (resolveParseSuccess g r1 (handleCancel st)) =
      AppState.observable (handleCancel st) ∧
    (resolveParseSuccess st.nextGen r2
        (handleProcess (resolveParseSuccess g r1 (handleFileSelect f st)))).parseResult
      = some r2 := by
  have hmem : g ∈ (handleFileSelect f st).abortedGens := by
    rw [handleFileSelect, href]
    exact List.mem_cons_self _ _
  have hmemc : g ∈ (handleCancel st).abortedGens := by
    rw [handleCancel, href]
    exact List.mem_cons_self _ _
  refine ⟨?_, ?_, ?_⟩
  · rw [AppState.observable, AppState.observable, resolveParseSuccess, if_pos hmem]
    rw [handleFileSelect, href]
  · rw [AppState.observable, AppState.observable, resolveParseSuccess, if_pos hmemc]
    rw [handleCancel, href]
  · have hstale : resolveParseSuccess g r1 (handleFileSelect f st) =
        { handleFileSelect f st with isLoading := false, abortControllerRef := none } := by
      rw [resolveParseSuccess, if_pos hmem]
    have hfile : (resolveParseSuccess g r1 (handleFileSelect f st)).file = some f := by
      rw [hstale, handleFileSelect, href]
    have hgens : (resolveParseSuccess g r1 (handleFileSelect f st)).abortedGens
        = g :: st.abortedGens := by
      rw [hstale, handleFileSelect, href]
    have hnext : (resolveParseSuccess g r1 (handleFileSelect f st)).nextGen
        = st.nextGen := by
      rw [hstale, handleFileSelect, href]
    rw [handleProcess.eq_def]
    rw [hfile, hgens, hnext]
    rw [resolveParseSuccess]
    rw [if_neg]
    intro hin
    rcases List.mem_cons.mp hin with heq | hin2
    · exact absurd heq.symm (Nat.ne_of_lt hg)
    · exact absurd (hfresh _ hin2) (lt_irrefl _)

/-- C1 witness: the theorem applied to st0 (parse generation 0 in flight):
after selecting a new document and letting the aborted request settle, a
fresh parse request's result is applied. -/
theorem stale_parse_result_discarded_witness :
    (st0.abortControllerRef = some 0 ∧ (∀ g2 ∈ st0.abortedGens, g2 < st0.nextGen) ∧
      0 < st0.nextGen) ∧
    (resolveParseSuccess st0.nextGen prB
        (handleProcess (resolveParseSuccess 0 prA (handleFileSelect "b.pdf" st0)))).parseResult
      = some prB :=
  ⟨⟨rfl, by decide, by decide⟩,
    (stale_parse_result_discarded st0 0 "b.pdf" prA prB rfl (by decide) (by decide)).2.2⟩

/-- C4 counterexample: a compliance run in flight when the document is
switched is not invalidated — the compliance fetch (CompliancePanel.tsx:
109-126) carries no abort signal and its continuation performs no liveness
check — so its response still writes the old document's report into the
fresh session: right after handleFileSelect the report is none, yet the
stale resolution sets it, refuting "every live operation token across all
kinds is invalidated simultaneously". -/
theorem document_switch_compliance_counterexample :
    (handleFileSelect "b.pdf" st0).complianceReport = none ∧
    (resolveChecksSuccess rptX psRun
      (handleFileSelect "b.pdf" st0)).2.complianceReport = some rptX ∧
    ¬((resolveChecksSuccess rptX psRun
      (handleFileSelect "b.pdf" st0)).2.complianceReport = none) := by
  refine ⟨rfl, rfl, ?_⟩
  decide

/-- C4 (amended): after a new document upload, the highlight is cleared, the
navigation target is cleared and the prior ParseResult, Report and chat
history are discarded; the live parse token (the only abort controller the
app holds) is invalidated, so the aborted parse's resolution leaves the
observable state untouched — but in-flight chat and compliance requests are
not invalidated: a compliance response issued before the switch still
applies its report afterwards. -/
theorem document_switch_reset_amended (st : AppState) (f : String) (g : ℕ) :
    (handleFileSelect f st).highlightedChunk = none ∧
    (handleFileSelect f st).targetPage = none ∧
    (handleFileSelect f st).parseResult = none ∧
    (handleFileSelect f st).complianceReport = none ∧
    (handleFileSelect f st).chatMessages = [] ∧
    (st.abortControllerRef = some g →
      g ∈ (handleFileSelect f st).abortedGens ∧
      ∀ r, AppState.observable (resolveParseSuccess g r (handleFileSelect f st)) =
        AppState.observable (handleFileSelect f st)) ∧
    (∀ rpt ps,
      (resolveChecksSuccess rpt ps (handleFileSelect f st)).2.complianceReport
        = some rpt) := by
  refine ⟨rfl, rfl, rfl, rfl, rfl, ?_, ?_⟩
  · intro href
    have hmem : g ∈ (handleFileSelect f st).abortedGens := by
      rw [handleFileSelect, href]
      exact List.mem_cons_self _ _
    refine ⟨hmem, fun r => ?_⟩
    rw [AppState.observable, AppState.observable, resolveParseSuccess, if_pos hmem]
    rw [handleFileSelect, href]
  · intro rpt ps
    rfl

/-- C4 witness: the amended theorem applied to st0 (parse generation 0 in
flight) and a fresh file name. -/
theorem document_switch_reset_amended_witness :
    st0.abortControllerRef = some 0 ∧
    0 ∈ (handleFileSelect "b.pdf" st0).abortedGens :=
  ⟨rfl, ((document_switch_reset_amended st0 "b.pdf" 0).2.2.2.2.2.1 rfl).1⟩

/-- C8: an aborted parse request's failure never reaches the user. After an
explicit cancel (or a document-switch supersession) aborts generation g,
g's rejection settles on the AbortError branch — `setError` is skipped —
and the session error stays unset; a still-live request's failure sets the
error exactly once (each generation settles exactly once, and the only
`setError` for parse is the single catch branch of App.tsx:114-120). -/
theorem aborted_failure_swallowed (st : AppState) (g g2 : ℕ) (e e2 f : String) :
    (st.abortControllerRef = some g →
      (resolveParseFailure g e (handleCancel st)).error = none ∧
      (resolveParseFailure g e (handleFileSelect f st)).error = none) ∧
    (g2 ∉ st.abortedGens → (resolveParseFailure g2 e2 st).error = some e2) := by
  constructor
  · intro href
    have hmemc : g ∈ (handleCancel st).abortedGens := by
      rw [handleCancel, href]
      exact List.mem_cons_self _ _
    have hmemf : g ∈ (handleFileSelect f st).abortedGens := by
      rw [handleFileSelect, href]
      exact List.mem_cons_self _ _
    constructor
    · rw [resolveParseFailure, if_pos hmemc, handleCancel, href]
    · rw [resolveParseFailure, if_pos hmemf, handleFileSelect, href]
  · intro hlive
    rw [resolveParseFailure, if_neg hlive]

/-- C8 witness: the theorem applied to st0 — the cancelled generation 0's
failure leaves no error, while a live generation 5's failure surfaces. -/
theorem aborted_failure_swallowed_witness :
    (st0.abortControllerRef = some 0 ∧ 5 ∉ st0.abortedGens) ∧
    (resolveParseFailure 0 "boom" (handleCancel st0)).error = none ∧
    (resolveParseFailure 5 "boom" st0).error = some "boom" :=
  ⟨⟨rfl, by decide⟩,
    ((aborted_failure_swallowed st0 0 5 "boom" "boom" "b.pdf").1 rfl).1,
    (aborted_failure_swallowed st0 0 5 "boom" "boom" "b.pdf").2 (by decide)⟩
